import Mathlib

/-!
Shallow embedding of the srv6-properties-generators repository
(src/srv6_generators.py and src/srv6_properties.py).

Modelling conventions:
* IPv4/IPv6 addresses are natural numbers (the value of `int(addr)` in
  Python); the string rendering of an IPv6 address is injective and
  canonical, so address equality is integer equality.
* A network (`IPv4Network`/`IPv6Network` with its prefix applied) is an
  `IPNetwork`: network address plus prefix length.
* Python exceptions are the `PyErr` error type inside `Except`.
* The module constants `net = "fcff::/16"`, `"fcf0::/16"`, `"fcfb::/16"`
  are parsed by `IPv6Interface` in the source; that parse always succeeds
  and `int(IPv6Interface(s).ip)` is constant-folded here to the numeral.
  The `IPv4Interface`/`IPv4Address` string parses are modelled by an
  executable parser, because `IPv6MgmtAllocator` feeds the IPv6 literal
  "2000::/16" to `IPv4Interface`, and that parse fails.
-/

/-- Python exceptions raised by the code paths embedded here:
`KeyError` (dict subscript miss), `TypeError` (`None` used in `<<`/`|`),
`AddressValueError` (bad address literal or out-of-range integer), and
`ValueError` (bad `supernet` prefix). -/
inductive PyErr where
  | keyError
  | typeError
  | addressValueError
  | valueError
deriving DecidableEq, Repr

/-- Computation that can raise one of the embedded Python exceptions. -/
abbrev Exc (α : Type) : Type := Except PyErr α

/-- A network value: network address (as integer) plus prefix length,
the data carried by a Python `IPv4Network`/`IPv6Network` after masking. -/
structure IPNetwork where
  addr : Nat
  prefixlen : Nat
deriving DecidableEq, Repr

/-- Keep the top `p` bits of an address of width `w`: clear the low
`w - p` host bits.  This is what `supernet(new_prefix=p)` does to the
network address. -/
def mask (w p a : Nat) : Nat := 2 ^ (w - p) * (a / 2 ^ (w - p))

/-- Python `IPv6Network(x).supernet(new_prefix=p)` for the call sites in
the source: masks the network address to `p` bits.  All IPv6 call sites
pass `p` at most the current prefix length, so no `ValueError` arises. -/
def supernet6 (n : IPNetwork) (p : Nat) : IPNetwork := ⟨mask 128 p n.addr, p⟩

/-- Python `IPv4Network.supernet(new_prefix=p)`: raises `ValueError` when
the requested prefix is longer than the current one. -/
def supernet4 (n : IPNetwork) (p : Nat) : Exc IPNetwork :=
  if p ≤ n.prefixlen then .ok ⟨mask 32 p n.addr, p⟩ else .error .valueError

/-- Python `IPv4Network(x)` on an integer: a /32 network, raising
`AddressValueError` when the integer does not fit in 32 bits. -/
def ipv4NetworkOfNat (x : Nat) : Exc IPNetwork :=
  if x < 2 ^ 32 then .ok ⟨x, 32⟩ else .error .addressValueError

/-- Split a character list at every occurrence of the separator, like
Python `str.split(sep)` for a one-character separator. -/
def splitChar (c : Char) : List Char → List (List Char)
  | [] => [[]]
  | x :: xs =>
      match splitChar c xs with
      | [] => [[]]
      | g :: gs => if x = c then [] :: g :: gs else (x :: g) :: gs

/-- Decimal digit value of a character, if it is a digit. -/
def digit? (ch : Char) : Option Nat :=
  if 48 ≤ ch.toNat ∧ ch.toNat ≤ 57 then some (ch.toNat - 48) else none

/-- Accumulate the decimal value of a digit string; `none` on any
non-digit character. -/
def digitsVal? : List Char → Nat → Option Nat
  | [], acc => some acc
  | ch :: rest, acc =>
      match digit? ch with
      | some d => digitsVal? rest (acc * 10 + d)
      | none => none

/-- Parse one dotted-quad component: a nonempty digit string whose value
is at most 255, as accepted by Python `IPv4Address`. -/
def octetVal? (cs : List Char) : Option Nat :=
  if cs.isEmpty then none
  else
    match digitsVal? cs 0 with
    | some v => if v ≤ 255 then some v else none
    | none => none

/-- Parse a dotted-quad IPv4 address character list into its integer
value; `AddressValueError` otherwise.  In particular an IPv6 literal such
as "2000::" fails, exactly as `IPv4Address`/`IPv4Interface` fail on it. -/
def parseQuad (cs : List Char) : Exc Nat :=
  match (splitChar ('.') cs).mapM octetVal? with
  | some [a, b, c, d] => .ok (((a * 256 + b) * 256 + c) * 256 + d)
  | _ => .error .addressValueError

/-- Python `int(IPv4Address(s))`. -/
def ipv4AddressOfStr (s : String) : Exc Nat := parseQuad s.toList

/-- Python `int(IPv4Interface(s).ip)`: the part before the "/" must be a
dotted quad. -/
def ipv4InterfaceIp (s : String) : Exc Nat :=
  parseQuad ((splitChar ('/') s.toList).headD [])

/-- Python `str(IPv4Address(n))`: dotted-quad rendering of a 32-bit
integer (used by `RouterIdAllocator`). -/
def ipv4AddressStr (n : Nat) : String :=
  toString (n / 2 ^ 24 % 256) ++ "." ++ toString (n / 2 ^ 16 % 256) ++ "."
    ++ toString (n / 2 ^ 8 % 256) ++ "." ++ toString (n % 256)

/-- Python dict lookup `d.get(k)`: `None` when the key is absent.  The
`node_to_index` dict is embedded as an association list in insertion
order, with in-place overwrite on re-assignment (Python dict semantics). -/
def dictGet? (d : List (String × Nat)) (k : String) : Option Nat :=
  match d with
  | [] => none
  | p :: rest => if p.1 = k then some p.2 else dictGet? rest k

/-- Python dict subscript `d[k]`: raises `KeyError` when the key is
absent. -/
def dictFind (d : List (String × Nat)) (k : String) : Exc Nat :=
  match dictGet? d k with
  | some v => .ok v
  | none => .error .keyError

/-- Python dict assignment `d[k] = v`: overwrite the first (unique)
binding in place, or append a new one. -/
def dictSet (d : List (String × Nat)) (k : String) (v : Nat) : List (String × Nat) :=
  match d with
  | [] => [(k, v)]
  | p :: rest => if p.1 = k then (k, v) :: rest else p :: dictSet rest k v

/-- Use of a value that may be Python `None` as an integer (`x << n`):
raises `TypeError` on `None`.  This is where the link generators that
look endpoints up with `d.get` crash on an unregistered node. -/
def optInt (x : Option Nat) : Exc Nat :=
  match x with
  | some v => .ok v
  | none => .error .typeError

/-!
Per-domain allocators (src/srv6_generators.py lines 38-539).
-/

/-- Module constant `bit = 16` (line 47). -/
def bit : Nat := 16

/-- Module constant `net = "fcff::/16"` (line 48):
`int(IPv6Interface(net).ip)` is the integer of the address `fcff::`. -/
def net : Nat := 0xfcff <<< 112

/-- Class attribute `SIDAllocator.prefix = 64` (line 57). -/
def SIDAllocator.prefixLen : Nat := 64

/-- `SIDAllocator.getSID(router_id, vpn_id)` (lines 59-67): parse the
dotted-quad router id, then pack `prefix | router_id << 96 | 2 << 80 |
vpn_id`.  For the in-range arguments of this development the value fits
in 128 bits, so the `IPv6Network`/`IPv6Interface` round trip is the
identity on the integer. -/
def SIDAllocator.getSID (router_id : String) (vpn_id : Nat) : Exc Nat := do
  let rid ← ipv4AddressOfStr router_id
  pure (net ||| rid <<< 96 ||| 2 <<< 80 ||| vpn_id)

/-- `SIDAllocator.getSIDFamily(router_id)` (lines 69-79): pack
`prefix | router_id << 96 | 2 << 80` and apply `supernet(new_prefix=64)`. -/
def SIDAllocator.getSIDFamily (router_id : String) : Exc IPNetwork := do
  let rid ← ipv4AddressOfStr router_id
  pure (supernet6 ⟨net ||| rid <<< 96 ||| 2 <<< 80, 128⟩ SIDAllocator.prefixLen)

/-- Class attribute `LoopbackAllocator.prefix = 64` (line 88). -/
def LoopbackAllocator.prefixLen : Nat := 64

/-- `LoopbackAllocator.getLoopbackAddress(router_index)` (lines 90-97):
`prefix | router_index << 96 | 1` (the `IPv6Network`/`IPv6Interface`
round trip is the identity on the integer for in-range indices). -/
def LoopbackAllocator.getLoopbackAddress (router_index : Nat) : Nat :=
  net ||| router_index <<< 96 ||| 1

/-- Class attribute `RouterNetAllocator.prefix = 32` (line 106). -/
def RouterNetAllocator.prefixLen : Nat := 32

/-- `RouterNetAllocator.getRouterNet(router_index)` (lines 108-117):
`prefix | router_index << 96` masked to a /32 by `supernet`. -/
def RouterNetAllocator.getRouterNet (router_index : Nat) : IPNetwork :=
  supernet6 ⟨net ||| router_index <<< 96, 128⟩ RouterNetAllocator.prefixLen

/-- `RouterIdAllocator.getRouterId(router_index)` (lines 125-129):
`str(IPv4Address(router_index))`; `IPv4Address` raises
`AddressValueError` on integers not fitting in 32 bits. -/
def RouterIdAllocator.getRouterId (router_index : Nat) : Exc String :=
  if router_index < 2 ^ 32 then .ok (ipv4AddressStr router_index)
  else .error .addressValueError

/-- Class attribute `IPv6NetAllocator.net = "fcf0::/16"` (line 144), as
the integer of `fcf0::`. -/
def IPv6NetAllocator.net : Nat := 0xfcf0 <<< 112

/-- Class attribute `IPv6NetAllocator.prefix = 64` (line 145). -/
def IPv6NetAllocator.prefixLen : Nat := 64

/-- `IPv6NetAllocator.getNet(l, r)` (lines 147-154):
`prefix | l << 80 | r << 64`, masked to /64 by `supernet`. -/
def IPv6NetAllocator.getNet (l_router_index r_router_index : Nat) : IPNetwork :=
  supernet6
    ⟨IPv6NetAllocator.net ||| l_router_index <<< 80 ||| r_router_index <<< 64, 128⟩
    IPv6NetAllocator.prefixLen

/-- `IPv6NetAllocator.getLRouterAddress(l, r)` (lines 156-163):
`prefix | l << 80 | r << 64 | 1`. -/
def IPv6NetAllocator.getLRouterAddress (l_router_index r_router_index : Nat) : Nat :=
  IPv6NetAllocator.net ||| l_router_index <<< 80 ||| r_router_index <<< 64 ||| 1

/-- `IPv6NetAllocator.getRRouterAddress(l, r)` (lines 165-172):
`prefix | l << 80 | r << 64 | 2`. -/
def IPv6NetAllocator.getRRouterAddress (l_router_index r_router_index : Nat) : Nat :=
  IPv6NetAllocator.net ||| l_router_index <<< 80 ||| r_router_index <<< 64 ||| 2

/-- Class attribute `IPv4NetAllocator.net = "11.0.0.0/8"` (line 187). -/
def IPv4NetAllocator.netStr : String := "11.0.0.0/8"

/-- Class attribute `IPv4NetAllocator.prefix = 30` (line 188). -/
def IPv4NetAllocator.prefixLen : Nat := 30

/-- `IPv4NetAllocator.getNet(l, r)` (lines 190-197):
`prefix | l << 13 | r << 2` as an `IPv4Network`, then
`supernet(new_prefix=30)`. -/
def IPv4NetAllocator.getNet (l_router_index r_router_index : Nat) : Exc IPNetwork := do
  let p ← ipv4InterfaceIp IPv4NetAllocator.netStr
  let n ← ipv4NetworkOfNat (p ||| l_router_index <<< 13 ||| r_router_index <<< 2)
  supernet4 n IPv4NetAllocator.prefixLen

/-- `IPv4NetAllocator.getLRouterAddress(l, r)` (lines 199-206):
`prefix | l << 13 | r << 2 | 1`; the `IPv4Interface(...).ip` round trip
returns the integer of the address. -/
def IPv4NetAllocator.getLRouterAddress (l_router_index r_router_index : Nat) : Exc Nat := do
  let p ← ipv4InterfaceIp IPv4NetAllocator.netStr
  let n ← ipv4NetworkOfNat (p ||| l_router_index <<< 13 ||| r_router_index <<< 2 ||| 1)
  pure n.addr

/-- `IPv4NetAllocator.getRRouterAddress(l, r)` (lines 208-215). -/
def IPv4NetAllocator.getRRouterAddress (l_router_index r_router_index : Nat) : Exc Nat := do
  let p ← ipv4InterfaceIp IPv4NetAllocator.netStr
  let n ← ipv4NetworkOfNat (p ||| l_router_index <<< 13 ||| r_router_index <<< 2 ||| 2)
  pure n.addr

/-- Class attribute `IPv6CustomerFacingNetAllocator.net = "fcff::/48"`
(line 230), as the integer of `fcff::`. -/
def IPv6CustomerFacingNetAllocator.net : Nat := 0xfcff <<< 112

/-- Class attribute `IPv6CustomerFacingNetAllocator.prefix = 64` (line 231). -/
def IPv6CustomerFacingNetAllocator.prefixLen : Nat := 64

/-- `IPv6CustomerFacingNetAllocator.getNet(router, host)` (lines 233-240):
`prefix | router << 96 | 3 << 80 | host << 64`, masked to /64. -/
def IPv6CustomerFacingNetAllocator.getNet (router_index host_index : Nat) : IPNetwork :=
  supernet6
    ⟨IPv6CustomerFacingNetAllocator.net ||| router_index <<< 96 ||| 3 <<< 80
        ||| host_index <<< 64, 128⟩
    IPv6CustomerFacingNetAllocator.prefixLen

/-- `IPv6CustomerFacingNetAllocator.getRouterAddress(router, host)`
(lines 242-249). -/
def IPv6CustomerFacingNetAllocator.getRouterAddress (router_index host_index : Nat) : Nat :=
  IPv6CustomerFacingNetAllocator.net ||| router_index <<< 96 ||| 3 <<< 80
    ||| host_index <<< 64 ||| 1

/-- `IPv6CustomerFacingNetAllocator.getHostAddress(router, host)`
(lines 251-258). -/
def IPv6CustomerFacingNetAllocator.getHostAddress (router_index host_index : Nat) : Nat :=
  IPv6CustomerFacingNetAllocator.net ||| router_index <<< 96 ||| 3 <<< 80
    ||| host_index <<< 64 ||| 2

/-- Class attribute `IPv4CustomerFacingNetAllocator.net = "192.168.0.0/16"`
(line 273). -/
def IPv4CustomerFacingNetAllocator.netStr : String := "192.168.0.0/16"

/-- Class attribute `IPv4CustomerFacingNetAllocator.prefix = 24` (line 274). -/
def IPv4CustomerFacingNetAllocator.prefixLen : Nat := 24

/-- `IPv4CustomerFacingNetAllocator.getNet(router, host)` (lines 276-283). -/
def IPv4CustomerFacingNetAllocator.getNet (router_index host_index : Nat) : Exc IPNetwork := do
  let p ← ipv4InterfaceIp IPv4CustomerFacingNetAllocator.netStr
  let n ← ipv4NetworkOfNat (p ||| router_index <<< 9 ||| host_index <<< 2)
  supernet4 n IPv4CustomerFacingNetAllocator.prefixLen

/-- `IPv4CustomerFacingNetAllocator.getRouterAddress(router, host)`
(lines 285-292). -/
def IPv4CustomerFacingNetAllocator.getRouterAddress (router_index host_index : Nat) : Exc Nat := do
  let p ← ipv4InterfaceIp IPv4CustomerFacingNetAllocator.netStr
  let n ← ipv4NetworkOfNat (p ||| router_index <<< 9 ||| host_index <<< 2 ||| 1)
  pure n.addr

/-- `IPv4CustomerFacingNetAllocator.getHostAddress(router, host)`
(lines 294-301). -/
def IPv4CustomerFacingNetAllocator.getHostAddress (router_index host_index : Nat) : Exc Nat := do
  let p ← ipv4InterfaceIp IPv4CustomerFacingNetAllocator.netStr
  let n ← ipv4NetworkOfNat (p ||| router_index <<< 9 ||| host_index <<< 2 ||| 2)
  pure n.addr

/-- Class attribute `IPv6AccessNetAllocator.net = "fcfb::/48"` (line 316),
as the integer of `fcfb::`. -/
def IPv6AccessNetAllocator.net : Nat := 0xfcfb <<< 112

/-- Class attribute `IPv6AccessNetAllocator.prefix = 64` (line 317). -/
def IPv6AccessNetAllocator.prefixLen : Nat := 64

/-- `IPv6AccessNetAllocator.getNet(router, host)` (lines 319-326). -/
def IPv6AccessNetAllocator.getNet (router_index host_index : Nat) : IPNetwork :=
  supernet6
    ⟨IPv6AccessNetAllocator.net ||| router_index <<< 96 ||| 3 <<< 80
        ||| host_index <<< 64, 128⟩
    IPv6AccessNetAllocator.prefixLen

/-- `IPv6AccessNetAllocator.getRouterAddress(router, host)` (lines 328-335). -/
def IPv6AccessNetAllocator.getRouterAddress (router_index host_index : Nat) : Nat :=
  IPv6AccessNetAllocator.net ||| router_index <<< 96 ||| 3 <<< 80
    ||| host_index <<< 64 ||| 1

/-- `IPv6AccessNetAllocator.getHostAddress(router, host)` (lines 337-344). -/
def IPv6AccessNetAllocator.getHostAddress (router_index host_index : Nat) : Nat :=
  IPv6AccessNetAllocator.net ||| router_index <<< 96 ||| 3 <<< 80
    ||| host_index <<< 64 ||| 2

/-- Class attribute `IPv4AccessNetAllocator.net = "10.0.0.0/16"` (line 359). -/
def IPv4AccessNetAllocator.netStr : String := "10.0.0.0/16"

/-- Class attribute `IPv4AccessNetAllocator.prefix = 30` (line 360). -/
def IPv4AccessNetAllocator.prefixLen : Nat := 30

/-- `IPv4AccessNetAllocator.getNet(router, host)` (lines 362-369). -/
def IPv4AccessNetAllocator.getNet (router_index host_index : Nat) : Exc IPNetwork := do
  let p ← ipv4InterfaceIp IPv4AccessNetAllocator.netStr
  let n ← ipv4NetworkOfNat (p ||| router_index <<< 9 ||| host_index <<< 2)
  supernet4 n IPv4AccessNetAllocator.prefixLen

/-- `IPv4AccessNetAllocator.getRouterAddress(router, host)` (lines 371-378). -/
def IPv4AccessNetAllocator.getRouterAddress (router_index host_index : Nat) : Exc Nat := do
  let p ← ipv4InterfaceIp IPv4AccessNetAllocator.netStr
  let n ← ipv4NetworkOfNat (p ||| router_index <<< 9 ||| host_index <<< 2 ||| 1)
  pure n.addr

/-- `IPv4AccessNetAllocator.getHostAddress(router, host)` (lines 380-387). -/
def IPv4AccessNetAllocator.getHostAddress (router_index host_index : Nat) : Exc Nat := do
  let p ← ipv4InterfaceIp IPv4AccessNetAllocator.netStr
  let n ← ipv4NetworkOfNat (p ||| router_index <<< 9 ||| host_index <<< 2 ||| 2)
  pure n.addr

/-- Class attribute `IPv6MgmtAllocator.net = "2000::/16"` (line 476).
The string is kept verbatim: the methods of this class feed it to
`IPv4Interface`, which rejects it. -/
def IPv6MgmtAllocator.netStr : String := "2000::/16"

/-- Class attribute `IPv6MgmtAllocator.prefix = 64` (line 477). -/
def IPv6MgmtAllocator.prefixLen : Nat := 64

/-- `IPv6MgmtAllocator.getNet(controller, router)` (lines 479-486).  The
source uses `IPv4Interface`/`IPv4Network` on the IPv6 literal
"2000::/16", so the first line always raises `AddressValueError`.  The
indices reach this method as possibly-`None` results of `dict.get`. -/
def IPv6MgmtAllocator.getNet (controller_index router_index : Option Nat) : Exc IPNetwork := do
  let p ← ipv4InterfaceIp IPv6MgmtAllocator.netStr
  let ci ← optInt controller_index
  let ri ← optInt router_index
  let n ← ipv4NetworkOfNat (p ||| ci <<< 80 ||| ri <<< 64)
  supernet4 n IPv6MgmtAllocator.prefixLen

/-- `IPv6MgmtAllocator.getControllerAddress(controller, router)`
(lines 488-495): same failing `IPv4Interface` parse, role bit 2. -/
def IPv6MgmtAllocator.getControllerAddress (controller_index router_index : Option Nat) :
    Exc Nat := do
  let p ← ipv4InterfaceIp IPv6MgmtAllocator.netStr
  let ci ← optInt controller_index
  let ri ← optInt router_index
  let n ← ipv4NetworkOfNat (p ||| ci <<< 80 ||| ri <<< 64 ||| 2)
  pure n.addr

/-- `IPv6MgmtAllocator.getRouterAddress(controller, router)`
(lines 497-504): same failing `IPv4Interface` parse, role bit 1. -/
def IPv6MgmtAllocator.getRouterAddress (controller_index router_index : Option Nat) :
    Exc Nat := do
  let p ← ipv4InterfaceIp IPv6MgmtAllocator.netStr
  let ci ← optInt controller_index
  let ri ← optInt router_index
  let n ← ipv4NetworkOfNat (p ||| ci <<< 80 ||| ri <<< 64 ||| 1)
  pure n.addr

/-!
Property records (src/srv6_properties.py) and the orchestrating
generators (src/srv6_generators.py lines 543-860).
-/

/-- `RouterProperties` (srv6_properties.py lines 63-73).  The IPv6
generator fills every field except `mgmtip`; the IPv4 generator passes
`None` for `loopback` and `routernet`, hence the `Option` fields. -/
structure RouterProperties where
  loopback : Option Nat
  routerid : String
  routernet : Option IPNetwork
  mgmtip : Option Nat
  index : Nat
deriving DecidableEq, Repr

/-- `HostProperties` (srv6_properties.py lines 76-84). -/
structure HostProperties where
  loopback : Option Nat
  mgmtip : Option Nat
  index : Nat
deriving DecidableEq, Repr

/-- `LinkProperties` (srv6_properties.py lines 100-106): two endpoint
addresses, the link subnet and its prefix length.  The source stores
string renderings; addresses and networks are kept as values here. -/
structure LinkProperties where
  iplhs : Nat
  iprhs : Nat
  net : IPNetwork
  prefixLen : Nat
deriving DecidableEq, Repr

/-- Mutable state of a properties generator: the `self.index` counter and
the `self.node_to_index` dict (lines 547, 555 and 711, 717).  The
allocator attributes are stateless and embedded as the functions above;
`verbose` only guards prints and `allocated` is never read. -/
structure Gen where
  index : Nat
  node_to_index : List (String × Nat)
deriving DecidableEq, Repr

/-- `IPv6PropertiesGenerator.getRoutersProperties(nodes)` (lines 559-575):
for each node, pre-increment the counter, allocate loopback, router id
and router net from the new index, record `node_to_index[node] = index`.
State is threaded through the loop; the updated state is returned with
the output list. -/
def IPv6PropertiesGenerator.getRoutersProperties :
    Gen → List String → Exc (List RouterProperties × Gen)
  | g, [] => .ok ([], g)
  | g, node :: rest => do
      let idx := g.index + 1
      let loopback := LoopbackAllocator.getLoopbackAddress idx
      let routerid ← RouterIdAllocator.getRouterId idx
      let routernet := RouterNetAllocator.getRouterNet idx
      let rp : RouterProperties := ⟨some loopback, routerid, some routernet, none, idx⟩
      let g1 : Gen := ⟨idx, dictSet g.node_to_index node idx⟩
      let (out, g2) ← IPv6PropertiesGenerator.getRoutersProperties g1 rest
      .ok (rp :: out, g2)

/-- `IPv6PropertiesGenerator.getHostsProperties(nodes)` (lines 578-592):
same loop as for routers, allocating only the loopback. -/
def IPv6PropertiesGenerator.getHostsProperties :
    Gen → List String → Exc (List HostProperties × Gen)
  | g, [] => .ok ([], g)
  | g, node :: rest => do
      let idx := g.index + 1
      let loopback := LoopbackAllocator.getLoopbackAddress idx
      let hp : HostProperties := ⟨some loopback, none, idx⟩
      let g1 : Gen := ⟨idx, dictSet g.node_to_index node idx⟩
      let (out, g2) ← IPv6PropertiesGenerator.getHostsProperties g1 rest
      .ok (hp :: out, g2)

/-- `IPv6PropertiesGenerator.getCoreLinksProperties(links)` (lines
595-620): endpoints are looked up with `self.node_to_index[...]`
(`KeyError` on a miss), then the core-link allocator derives subnet and
endpoint addresses.  The loop reads but never assigns the state. -/
def IPv6PropertiesGenerator.getCoreLinksProperties :
    Gen → List (String × String) → Exc (List LinkProperties × Gen)
  | g, [] => .ok ([], g)
  | g, link :: rest => do
      let lrouter ← dictFind g.node_to_index link.1
      let rrouter ← dictFind g.node_to_index link.2
      let n := IPv6NetAllocator.getNet lrouter rrouter
      let lrouterAddr := IPv6NetAllocator.getLRouterAddress lrouter rrouter
      let rrouterAddr := IPv6NetAllocator.getRRouterAddress lrouter rrouter
      let lp : LinkProperties := ⟨lrouterAddr, rrouterAddr, n, IPv6NetAllocator.prefixLen⟩
      let (out, g1) ← IPv6PropertiesGenerator.getCoreLinksProperties g rest
      .ok (lp :: out, g1)

/-- `IPv6PropertiesGenerator.getEdgeLinksProperties(links)` (lines
623-647): endpoints are looked up with `self.node_to_index.get(...)`
(`None` on a miss); the `None` raises `TypeError` when the allocator
shifts it. -/
def IPv6PropertiesGenerator.getEdgeLinksProperties :
    Gen → List (String × String) → Exc (List LinkProperties × Gen)
  | g, [] => .ok ([], g)
  | g, link :: rest => do
      let lnode ← optInt (dictGet? g.node_to_index link.1)
      let rnode ← optInt (dictGet? g.node_to_index link.2)
      let n := IPv6CustomerFacingNetAllocator.getNet lnode rnode
      let lnodeAddr := IPv6CustomerFacingNetAllocator.getRouterAddress lnode rnode
      let rnodeAddr := IPv6CustomerFacingNetAllocator.getHostAddress lnode rnode
      let lp : LinkProperties :=
        ⟨lnodeAddr, rnodeAddr, n, IPv6CustomerFacingNetAllocator.prefixLen⟩
      let (out, g1) ← IPv6PropertiesGenerator.getEdgeLinksProperties g rest
      .ok (lp :: out, g1)

/-- `IPv6PropertiesGenerator.getAccessLinksProperties(links)` (lines
650-671): as the edge loop, with the access allocator. -/
def IPv6PropertiesGenerator.getAccessLinksProperties :
    Gen → List (String × String) → Exc (List LinkProperties × Gen)
  | g, [] => .ok ([], g)
  | g, link :: rest => do
      let lnode ← optInt (dictGet? g.node_to_index link.1)
      let rnode ← optInt (dictGet? g.node_to_index link.2)
      let n := IPv6AccessNetAllocator.getNet lnode rnode
      let lnodeAddr := IPv6AccessNetAllocator.getRouterAddress lnode rnode
      let rnodeAddr := IPv6AccessNetAllocator.getHostAddress lnode rnode
      let lp : LinkProperties :=
        ⟨lnodeAddr, rnodeAddr, n, IPv6AccessNetAllocator.prefixLen⟩
      let (out, g1) ← IPv6PropertiesGenerator.getAccessLinksProperties g rest
      .ok (lp :: out, g1)

/-- `IPv6PropertiesGenerator.getMgmtLinksProperties(links)` (lines
674-695): endpoints looked up with `.get`, then the management allocator
(whose every method starts by parsing "2000::/16" with `IPv4Interface`)
derives net, controller address (`iplhs`) and router address (`iprhs`). -/
def IPv6PropertiesGenerator.getMgmtLinksProperties :
    Gen → List (String × String) → Exc (List LinkProperties × Gen)
  | g, [] => .ok ([], g)
  | g, link :: rest => do
      let lnode := dictGet? g.node_to_index link.1
      let rnode := dictGet? g.node_to_index link.2
      let n ← IPv6MgmtAllocator.getNet lnode rnode
      let lnodeAddr ← IPv6MgmtAllocator.getControllerAddress lnode rnode
      let rnodeAddr ← IPv6MgmtAllocator.getRouterAddress lnode rnode
      let lp : LinkProperties := ⟨lnodeAddr, rnodeAddr, n, IPv6MgmtAllocator.prefixLen⟩
      let (out, g1) ← IPv6PropertiesGenerator.getMgmtLinksProperties g rest
      .ok (lp :: out, g1)

/-- `IPv4PropertiesGenerator.getCoreLinksProperties(links)` (lines
757-779): same loop shape as the IPv6 one, with the IPv4 core-link
allocator (which can itself raise on out-of-range values). -/
def IPv4PropertiesGenerator.getCoreLinksProperties :
    Gen → List (String × String) → Exc (List LinkProperties × Gen)
  | g, [] => .ok ([], g)
  | g, link :: rest => do
      let lrouter ← dictFind g.node_to_index link.1
      let rrouter ← dictFind g.node_to_index link.2
      let n ← IPv4NetAllocator.getNet lrouter rrouter
      let lrouterAddr ← IPv4NetAllocator.getLRouterAddress lrouter rrouter
      let rrouterAddr ← IPv4NetAllocator.getRRouterAddress lrouter rrouter
      let lp : LinkProperties := ⟨lrouterAddr, rrouterAddr, n, IPv4NetAllocator.prefixLen⟩
      let (out, g1) ← IPv4PropertiesGenerator.getCoreLinksProperties g rest
      .ok (lp :: out, g1)

/-- `IPv4PropertiesGenerator.getEdgeLinksProperties(links)` (lines
782-803). -/
def IPv4PropertiesGenerator.getEdgeLinksProperties :
    Gen → List (String × String) → Exc (List LinkProperties × Gen)
  | g, [] => .ok ([], g)
  | g, link :: rest => do
      let lnode ← optInt (dictGet? g.node_to_index link.1)
      let rnode ← optInt (dictGet? g.node_to_index link.2)
      let n ← IPv4CustomerFacingNetAllocator.getNet lnode rnode
      let lnodeAddr ← IPv4CustomerFacingNetAllocator.getRouterAddress lnode rnode
      let rnodeAddr ← IPv4CustomerFacingNetAllocator.getHostAddress lnode rnode
      let lp : LinkProperties :=
        ⟨lnodeAddr, rnodeAddr, n, IPv4CustomerFacingNetAllocator.prefixLen⟩
      let (out, g1) ← IPv4PropertiesGenerator.getEdgeLinksProperties g rest
      .ok (lp :: out, g1)

/-- `IPv4PropertiesGenerator.getAccessLinksProperties(links)` (lines
806-827). -/
def IPv4PropertiesGenerator.getAccessLinksProperties :
    Gen → List (String × String) → Exc (List LinkProperties × Gen)
  | g, [] => .ok ([], g)
  | g, link :: rest => do
      let lnode ← optInt (dictGet? g.node_to_index link.1)
      let rnode ← optInt (dictGet? g.node_to_index link.2)
      let n ← IPv4AccessNetAllocator.getNet lnode rnode
      let lnodeAddr ← IPv4AccessNetAllocator.getRouterAddress lnode rnode
      let rnodeAddr ← IPv4AccessNetAllocator.getHostAddress lnode rnode
      let lp : LinkProperties :=
        ⟨lnodeAddr, rnodeAddr, n, IPv4AccessNetAllocator.prefixLen⟩
      let (out, g1) ← IPv4PropertiesGenerator.getAccessLinksProperties g rest
      .ok (lp :: out, g1)

/-!
Spec-side predicates used to state the claims.
-/

/-- Membership of an address in a network block: the address agrees with
the network address on the prefix bits (IPv6 width 128). -/
def memNet (a : Nat) (n : IPNetwork) : Prop :=
  mask 128 n.prefixlen a = mask 128 n.prefixlen n.addr

instance memNetDecidable (a : Nat) (n : IPNetwork) : Decidable (memNet a n) :=
  inferInstanceAs (Decidable (mask 128 n.prefixlen a = mask 128 n.prefixlen n.addr))

/-- Two network blocks are disjoint sets of addresses. -/
def disjointNet (m n : IPNetwork) : Prop :=
  ∀ a : Nat, memNet a m → memNet a n → False

/-- Every address of the first block lies in the second. -/
def subsetNet (m n : IPNetwork) : Prop :=
  ∀ a : Nat, memNet a m → memNet a n

/-- The /64 block containing a given IPv6 address (used to state the
claims about "the loopback's /64"). -/
def slash64 (a : Nat) : IPNetwork := ⟨mask 128 64 a, 64⟩

/-- Position of the last occurrence of an identifier in a node list
(0 = head); meaningful when the identifier occurs in the list.  Used to
state what index the registration loops actually leave in the map. -/
def lastOcc : List String → String → Nat
  | [], _ => 0
  | _ :: xs, n => if n ∈ xs then lastOcc xs n + 1 else 0

/-!
Arithmetic helpers: packing non-overlapping bit fields with `|||` is
addition, and membership in aligned blocks is a division fact.
-/

theorem two_pow_mul_lor (k q b : Nat) (hb : b < 2 ^ k) :
    2 ^ k * q ||| b = 2 ^ k * q + b := by
  apply Nat.eq_of_testBit_eq
  intro i
  rw [Nat.testBit_lor]
  rcases Nat.lt_or_ge i k with hik | hik
  · have e : (2 : Nat) ^ k = 2 ^ i * 2 ^ (k - i) := by
      rw [← pow_add]
      congr 1
      omega
    have hk : (2 : Nat) ^ k * q = 2 ^ i * (2 ^ (k - i) * q) := by
      rw [e, Nat.mul_assoc]
    have e2 : (2 : Nat) ^ (k - i) = 2 * 2 ^ (k - i - 1) := by
      rw [← pow_succ']
      congr 1
      omega
    have hev : 2 ^ (k - i) * q = 2 * (2 ^ (k - i - 1) * q) := by
      rw [e2, Nat.mul_assoc]
    have h1 : (2 ^ k * q).testBit i = false := by
      rw [Nat.testBit_to_div_mod, hk,
        Nat.mul_div_cancel_left _ (pow_pos (by norm_num) i), hev, Nat.mul_mod_right]
      rfl
    have h2 : (2 ^ k * q + b).testBit i = b.testBit i := by
      rw [Nat.testBit_to_div_mod, Nat.testBit_to_div_mod, hk,
        Nat.mul_add_div (pow_pos (by norm_num) i), hev, Nat.mul_add_mod]
    rw [h1, h2, Bool.false_or]
  · have h3 : b.testBit i = false :=
      Nat.testBit_eq_false_of_lt
        (lt_of_lt_of_le hb (Nat.pow_le_pow_right (by norm_num) hik))
    have hsplit : (2 : Nat) ^ i = 2 ^ k * 2 ^ (i - k) := by
      rw [← pow_add]
      congr 1
      omega
    have h4 : (2 ^ k * q + b).testBit i = (2 ^ k * q).testBit i := by
      rw [Nat.testBit_to_div_mod, Nat.testBit_to_div_mod, hsplit,
        ← Nat.div_div_eq_div_mul, ← Nat.div_div_eq_div_mul,
        Nat.mul_add_div (pow_pos (by norm_num) k), Nat.div_eq_of_lt hb,
        Nat.mul_div_cancel_left _ (pow_pos (by norm_num) k), Nat.add_zero]
    rw [h3, h4, Bool.or_false]

theorem memNet64_iff (H a : Nat) : memNet a ⟨2 ^ 64 * H, 64⟩ ↔ a / 2 ^ 64 = H := by
  unfold memNet mask
  norm_num

theorem memNet32_iff (H a : Nat) : memNet a ⟨2 ^ 96 * H, 32⟩ ↔ a / 2 ^ 96 = H := by
  unfold memNet mask
  norm_num

theorem disjointNet64 (H1 H2 : Nat) (h : H1 ≠ H2) :
    disjointNet ⟨2 ^ 64 * H1, 64⟩ ⟨2 ^ 64 * H2, 64⟩ :=
  fun a h1 h2 =>
    h (((memNet64_iff H1 a).mp h1).symm.trans ((memNet64_iff H2 a).mp h2))

theorem subsetNet64_32 (H K : Nat) (h : H / 2 ^ 32 = K) :
    subsetNet ⟨2 ^ 64 * H, 64⟩ ⟨2 ^ 96 * K, 32⟩ := by
  intro a ha
  rw [memNet64_iff] at ha
  rw [memNet32_iff, ← h, ← ha, Nat.div_div_eq_div_mul]
  norm_num

theorem disjointNet64_32 (H K : Nat) (h : H / 2 ^ 32 ≠ K) :
    disjointNet ⟨2 ^ 64 * H, 64⟩ ⟨2 ^ 96 * K, 32⟩ := by
  intro a h1 h2
  rw [memNet64_iff] at h1
  rw [memNet32_iff] at h2
  apply h
  calc H / 2 ^ 32 = a / 2 ^ 64 / 2 ^ 32 := by rw [h1]
    _ = a / 2 ^ 96 := by rw [Nat.div_div_eq_div_mul]; norm_num
    _ = K := h2

theorem mul_pow_lt (i a b : Nat) (hi : i < 2 ^ a) : i * 2 ^ b < 2 ^ (a + b) := by
  calc i * 2 ^ b < 2 ^ a * 2 ^ b := mul_lt_mul_of_pos_right hi (pow_pos (by norm_num) b)
    _ = 2 ^ (a + b) := by rw [pow_add]

theorem loopback_shape (i : Nat) (hi : i < 2 ^ 16) :
    LoopbackAllocator.getLoopbackAddress i = 2 ^ 96 * (0xfcff * 2 ^ 16 + i) + 1 := by
  unfold LoopbackAllocator.getLoopbackAddress net
  rw [Nat.shiftLeft_eq, Nat.shiftLeft_eq,
    (by ring : (0xfcff : Nat) * 2 ^ 112 = 2 ^ 112 * 0xfcff),
    two_pow_mul_lor 112 0xfcff (i * 2 ^ 96) (by simpa using mul_pow_lt i 16 96 hi),
    (by ring : (2 : Nat) ^ 112 * 0xfcff + i * 2 ^ 96 = 2 ^ 96 * (0xfcff * 2 ^ 16 + i)),
    two_pow_mul_lor 96 _ 1 (by norm_num)]

theorem routerNetVal (i : Nat) (hi : i < 2 ^ 16) :
    net ||| i <<< 96 = 2 ^ 96 * (0xfcff * 2 ^ 16 + i) := by
  unfold net
  rw [Nat.shiftLeft_eq, Nat.shiftLeft_eq,
    (by ring : (0xfcff : Nat) * 2 ^ 112 = 2 ^ 112 * 0xfcff),
    two_pow_mul_lor 112 0xfcff (i * 2 ^ 96) (by simpa using mul_pow_lt i 16 96 hi)]
  ring

theorem routerNet_shape (i : Nat) (hi : i < 2 ^ 16) :
    RouterNetAllocator.getRouterNet i = ⟨2 ^ 96 * (0xfcff * 2 ^ 16 + i), 32⟩ := by
  unfold RouterNetAllocator.getRouterNet RouterNetAllocator.prefixLen supernet6
  rw [routerNetVal i hi]
  unfold mask
  norm_num

theorem sidFamVal (i : Nat) (hi : i < 2 ^ 16) :
    net ||| i <<< 96 ||| 2 <<< 80 =
      2 ^ 64 * (2 ^ 32 * (0xfcff * 2 ^ 16 + i) + 2 ^ 17) := by
  rw [routerNetVal i hi, Nat.shiftLeft_eq,
    (by ring : (2 : Nat) ^ 96 * (0xfcff * 2 ^ 16 + i) =
      2 ^ 82 * (2 ^ 14 * (0xfcff * 2 ^ 16 + i))),
    two_pow_mul_lor 82 _ (2 * 2 ^ 80) (by norm_num)]
  ring

theorem sidFamily_shape (i : Nat) (hi : i < 2 ^ 16) :
    supernet6 ⟨net ||| i <<< 96 ||| 2 <<< 80, 128⟩ SIDAllocator.prefixLen =
      ⟨2 ^ 64 * (2 ^ 32 * (0xfcff * 2 ^ 16 + i) + 2 ^ 17), 64⟩ := by
  unfold supernet6 SIDAllocator.prefixLen
  rw [sidFamVal i hi]
  unfold mask
  norm_num

theorem cfVal (i j : Nat) (hi : i < 2 ^ 16) (hj : j < 2 ^ 16) :
    IPv6CustomerFacingNetAllocator.net ||| i <<< 96 ||| 3 <<< 80 ||| j <<< 64 =
      2 ^ 64 * (2 ^ 32 * (0xfcff * 2 ^ 16 + i) + 3 * 2 ^ 16 + j) := by
  unfold IPv6CustomerFacingNetAllocator.net
  rw [Nat.shiftLeft_eq, Nat.shiftLeft_eq, Nat.shiftLeft_eq, Nat.shiftLeft_eq,
    (by ring : (0xfcff : Nat) * 2 ^ 112 = 2 ^ 112 * 0xfcff),
    two_pow_mul_lor 112 0xfcff (i * 2 ^ 96) (by simpa using mul_pow_lt i 16 96 hi),
    (by ring : (2 : Nat) ^ 112 * 0xfcff + i * 2 ^ 96 = 2 ^ 96 * (0xfcff * 2 ^ 16 + i)),
    two_pow_mul_lor 96 _ (3 * 2 ^ 80) (by norm_num),
    (by ring : (2 : Nat) ^ 96 * (0xfcff * 2 ^ 16 + i) + 3 * 2 ^ 80 =
      2 ^ 80 * (2 ^ 16 * (0xfcff * 2 ^ 16 + i) + 3)),
    two_pow_mul_lor 80 _ (j * 2 ^ 64) (by simpa using mul_pow_lt j 16 64 hj)]
  ring

theorem cf_shape (i j : Nat) (hi : i < 2 ^ 16) (hj : j < 2 ^ 16) :
    IPv6CustomerFacingNetAllocator.getNet i j =
      ⟨2 ^ 64 * (2 ^ 32 * (0xfcff * 2 ^ 16 + i) + 3 * 2 ^ 16 + j), 64⟩ := by
  unfold IPv6CustomerFacingNetAllocator.getNet IPv6CustomerFacingNetAllocator.prefixLen
    supernet6
  rw [cfVal i j hi hj]
  unfold mask
  norm_num

theorem coreVal (l r : Nat) (hl : l < 2 ^ 16) (hr : r < 2 ^ 16) :
    IPv6NetAllocator.net ||| l <<< 80 ||| r <<< 64 =
      2 ^ 64 * (0xfcf0 * 2 ^ 48 + l * 2 ^ 16 + r) := by
  unfold IPv6NetAllocator.net
  rw [Nat.shiftLeft_eq, Nat.shiftLeft_eq, Nat.shiftLeft_eq,
    (by ring : (0xfcf0 : Nat) * 2 ^ 112 = 2 ^ 112 * 0xfcf0),
    two_pow_mul_lor 112 0xfcf0 (l * 2 ^ 80)
      (lt_trans (by simpa using mul_pow_lt l 16 80 hl) (by norm_num)),
    (by ring : (2 : Nat) ^ 112 * 0xfcf0 + l * 2 ^ 80 = 2 ^ 80 * (0xfcf0 * 2 ^ 32 + l)),
    two_pow_mul_lor 80 _ (r * 2 ^ 64) (by simpa using mul_pow_lt r 16 64 hr)]
  ring

theorem core_getNet_shape (l r : Nat) (hl : l < 2 ^ 16) (hr : r < 2 ^ 16) :
    IPv6NetAllocator.getNet l r = ⟨2 ^ 64 * (0xfcf0 * 2 ^ 48 + l * 2 ^ 16 + r), 64⟩ := by
  unfold IPv6NetAllocator.getNet IPv6NetAllocator.prefixLen supernet6
  rw [coreVal l r hl hr]
  unfold mask
  norm_num

theorem core_getL_shape (l r : Nat) (hl : l < 2 ^ 16) (hr : r < 2 ^ 16) :
    IPv6NetAllocator.getLRouterAddress l r =
      2 ^ 64 * (0xfcf0 * 2 ^ 48 + l * 2 ^ 16 + r) + 1 := by
  unfold IPv6NetAllocator.getLRouterAddress
  rw [coreVal l r hl hr, two_pow_mul_lor 64 _ 1 (by norm_num)]

theorem core_getR_shape (l r : Nat) (hl : l < 2 ^ 16) (hr : r < 2 ^ 16) :
    IPv6NetAllocator.getRRouterAddress l r =
      2 ^ 64 * (0xfcf0 * 2 ^ 48 + l * 2 ^ 16 + r) + 2 := by
  unfold IPv6NetAllocator.getRRouterAddress
  rw [coreVal l r hl hr, two_pow_mul_lor 64 _ 2 (by norm_num)]

theorem loopback_slash64_shape (i : Nat) (hi : i < 2 ^ 16) :
    slash64 (LoopbackAllocator.getLoopbackAddress i) =
      ⟨2 ^ 64 * (2 ^ 32 * (0xfcff * 2 ^ 16 + i)), 64⟩ := by
  unfold slash64
  rw [loopback_shape i hi,
    (by ring : (2 : Nat) ^ 96 * (0xfcff * 2 ^ 16 + i) + 1 =
      2 ^ 64 * (2 ^ 32 * (0xfcff * 2 ^ 16 + i)) + 1)]
  unfold mask
  norm_num
  omega

/-!
Generic lemmas about the `Except` loops and the dict embedding.
-/

theorem bind_ok {α β : Type} (x : Exc α) (f : α → Exc β) (v : β)
    (h : x >>= f = .ok v) : ∃ a, x = .ok a ∧ f a = .ok v := by
  cases x with
  | error e => simp [Bind.bind, Except.bind] at h
  | ok a => exact ⟨a, rfl, by simpa [Bind.bind, Except.bind] using h⟩

theorem dictGet_dictSet_same (d : List (String × Nat)) (k : String) (v : Nat) :
    dictGet? (dictSet d k v) k = some v := by
  induction d with
  | nil => simp [dictSet, dictGet?]
  | cons p rest ih =>
      by_cases h : p.1 = k
      · simp [dictSet, dictGet?, h]
      · simp [dictSet, dictGet?, h, ih]

theorem dictGet_dictSet_other (d : List (String × Nat)) (k : String) (v : Nat)
    (k' : String) (h : k' ≠ k) :
    dictGet? (dictSet d k v) k' = dictGet? d k' := by
  have hk : ¬ k = k' := fun hkk => h hkk.symm
  induction d with
  | nil => simp [dictSet, dictGet?, hk]
  | cons p rest ih =>
      by_cases hp : p.1 = k
      · simp [dictSet, dictGet?, hp, hk]
      · by_cases hp' : p.1 = k'
        · simp [dictSet, dictGet?, hp, hp', h]
        · simp [dictSet, dictGet?, hp, hp', ih]

/-!
Frame lemmas: every link-resolution loop threads the generator state
unchanged (the loop bodies only read `node_to_index`).
-/

theorem core6Frame : ∀ (links : List (String × String)) (g : Gen)
    (out : List LinkProperties) (g' : Gen),
    IPv6PropertiesGenerator.getCoreLinksProperties g links = .ok (out, g') → g' = g := by
  intro links
  induction links with
  | nil =>
      intro g out g' h
      simp [IPv6PropertiesGenerator.getCoreLinksProperties] at h
      exact h.2.symm
  | cons l rest ih =>
      intro g out g' h
      simp only [IPv6PropertiesGenerator.getCoreLinksProperties] at h
      obtain ⟨a, ha, h⟩ := bind_ok _ _ _ h
      obtain ⟨b, hb, h⟩ := bind_ok _ _ _ h
      obtain ⟨p, hp, h⟩ := bind_ok _ _ _ h
      simp [pure, Except.pure] at h
      exact h.2 ▸ (ih g p.1 p.2 hp)

theorem edge6Frame : ∀ (links : List (String × String)) (g : Gen)
    (out : List LinkProperties) (g' : Gen),
    IPv6PropertiesGenerator.getEdgeLinksProperties g links = .ok (out, g') → g' = g := by
  intro links
  induction links with
  | nil =>
      intro g out g' h
      simp [IPv6PropertiesGenerator.getEdgeLinksProperties] at h
      exact h.2.symm
  | cons l rest ih =>
      intro g out g' h
      simp only [IPv6PropertiesGenerator.getEdgeLinksProperties] at h
      obtain ⟨a, ha, h⟩ := bind_ok _ _ _ h
      obtain ⟨b, hb, h⟩ := bind_ok _ _ _ h
      obtain ⟨p, hp, h⟩ := bind_ok _ _ _ h
      simp [pure, Except.pure] at h
      exact h.2 ▸ (ih g p.1 p.2 hp)

theorem access6Frame : ∀ (links : List (String × String)) (g : Gen)
    (out : List LinkProperties) (g' : Gen),
    IPv6PropertiesGenerator.getAccessLinksProperties g links = .ok (out, g') → g' = g := by
  intro links
  induction links with
  | nil =>
      intro g out g' h
      simp [IPv6PropertiesGenerator.getAccessLinksProperties] at h
      exact h.2.symm
  | cons l rest ih =>
      intro g out g' h
      simp only [IPv6PropertiesGenerator.getAccessLinksProperties] at h
      obtain ⟨a, ha, h⟩ := bind_ok _ _ _ h
      obtain ⟨b, hb, h⟩ := bind_ok _ _ _ h
      obtain ⟨p, hp, h⟩ := bind_ok _ _ _ h
      simp [pure, Except.pure] at h
      exact h.2 ▸ (ih g p.1 p.2 hp)

theorem core4Frame : ∀ (links : List (String × String)) (g : Gen)
    (out : List LinkProperties) (g' : Gen),
    IPv4PropertiesGenerator.getCoreLinksProperties g links = .ok (out, g') → g' = g := by
  intro links
  induction links with
  | nil =>
      intro g out g' h
      simp [IPv4PropertiesGenerator.getCoreLinksProperties] at h
      exact h.2.symm
  | cons l rest ih =>
      intro g out g' h
      simp only [IPv4PropertiesGenerator.getCoreLinksProperties] at h
      obtain ⟨a, ha, h⟩ := bind_ok _ _ _ h
      obtain ⟨b, hb, h⟩ := bind_ok _ _ _ h
      obtain ⟨n, hn, h⟩ := bind_ok _ _ _ h
      obtain ⟨la, hla, h⟩ := bind_ok _ _ _ h
      obtain ⟨ra, hra, h⟩ := bind_ok _ _ _ h
      obtain ⟨p, hp, h⟩ := bind_ok _ _ _ h
      simp [pure, Except.pure] at h
      exact h.2 ▸ (ih g p.1 p.2 hp)

theorem edge4Frame : ∀ (links : List (String × String)) (g : Gen)
    (out : List LinkProperties) (g' : Gen),
    IPv4PropertiesGenerator.getEdgeLinksProperties g links = .ok (out, g') → g' = g := by
  intro links
  induction links with
  | nil =>
      intro g out g' h
      simp [IPv4PropertiesGenerator.getEdgeLinksProperties] at h
      exact h.2.symm
  | cons l rest ih =>
      intro g out g' h
      simp only [IPv4PropertiesGenerator.getEdgeLinksProperties] at h
      obtain ⟨a, ha, h⟩ := bind_ok _ _ _ h
      obtain ⟨b, hb, h⟩ := bind_ok _ _ _ h
      obtain ⟨n, hn, h⟩ := bind_ok _ _ _ h
      obtain ⟨la, hla, h⟩ := bind_ok _ _ _ h
      obtain ⟨ra, hra, h⟩ := bind_ok _ _ _ h
      obtain ⟨p, hp, h⟩ := bind_ok _ _ _ h
      simp [pure, Except.pure] at h
      exact h.2 ▸ (ih g p.1 p.2 hp)

theorem access4Frame : ∀ (links : List (String × String)) (g : Gen)
    (out : List LinkProperties) (g' : Gen),
    IPv4PropertiesGenerator.getAccessLinksProperties g links = .ok (out, g') → g' = g := by
  intro links
  induction links with
  | nil =>
      intro g out g' h
      simp [IPv4PropertiesGenerator.getAccessLinksProperties] at h
      exact h.2.symm
  | cons l rest ih =>
      intro g out g' h
      simp only [IPv4PropertiesGenerator.getAccessLinksProperties] at h
      obtain ⟨a, ha, h⟩ := bind_ok _ _ _ h
      obtain ⟨b, hb, h⟩ := bind_ok _ _ _ h
      obtain ⟨n, hn, h⟩ := bind_ok _ _ _ h
      obtain ⟨la, hla, h⟩ := bind_ok _ _ _ h
      obtain ⟨ra, hra, h⟩ := bind_ok _ _ _ h
      obtain ⟨p, hp, h⟩ := bind_ok _ _ _ h
      simp [pure, Except.pure] at h
      exact h.2 ▸ (ih g p.1 p.2 hp)

/-!
Registration loops: every list element pre-increments the counter; the
map ends up holding, for each identifier, the index assigned at its last
occurrence; identifiers not in the list keep their previous binding.
-/

theorem routersRegSpec : ∀ (nodes : List String) (g : Gen)
    (out : List RouterProperties) (g' : Gen),
    IPv6PropertiesGenerator.getRoutersProperties g nodes = .ok (out, g') →
    g'.index = g.index + nodes.length ∧
    (∀ n, n ∈ nodes →
      dictGet? g'.node_to_index n = some (g.index + 1 + lastOcc nodes n)) ∧
    (∀ k, ¬ k ∈ nodes →
      dictGet? g'.node_to_index k = dictGet? g.node_to_index k) := by
  intro nodes
  induction nodes with
  | nil =>
      intro g out g' h
      simp [IPv6PropertiesGenerator.getRoutersProperties] at h
      refine ⟨?_, ?_, ?_⟩
      · rw [← h.2]
        simp
      · intro n hn
        simp at hn
      · intro k hk
        rw [← h.2]
  | cons x xs ih =>
      intro g out g' h
      simp only [IPv6PropertiesGenerator.getRoutersProperties] at h
      obtain ⟨rid, hrid, h⟩ := bind_ok _ _ _ h
      obtain ⟨p, hp, h⟩ := bind_ok _ _ _ h
      simp [pure, Except.pure] at h
      obtain ⟨hout, hg⟩ := h
      subst hg
      obtain ⟨ih1, ih2, ih3⟩ := ih _ _ _ hp
      refine ⟨?_, ?_, ?_⟩
      · simp at ih1
        simp [ih1]
        omega
      · intro n hn
        by_cases hnx : n ∈ xs
        · rw [ih2 n hnx]
          simp only [lastOcc, hnx, if_pos]
          congr 1
          omega
        · have hnx2 : n = x := by
            rcases List.mem_cons.mp hn with h1 | h1
            · exact h1
            · exact absurd h1 hnx
          subst hnx2
          rw [ih3 n hnx]
          simp only [lastOcc, hnx, if_neg, if_false]
          simp [dictGet_dictSet_same]
      · intro k hk
        have hk1 : ¬ k ∈ xs := fun hh => hk (List.mem_cons_of_mem _ hh)
        have hk2 : ¬ k = x := fun hh => hk (hh ▸ List.mem_cons_self _ _)
        rw [ih3 k hk1]
        simp [dictGet_dictSet_other _ _ _ _ hk2]

theorem hostsRegSpec : ∀ (nodes : List String) (g : Gen)
    (out : List HostProperties) (g' : Gen),
    IPv6PropertiesGenerator.getHostsProperties g nodes = .ok (out, g') →
    g'.index = g.index + nodes.length ∧
    (∀ n, n ∈ nodes →
      dictGet? g'.node_to_index n = some (g.index + 1 + lastOcc nodes n)) ∧
    (∀ k, ¬ k ∈ nodes →
      dictGet? g'.node_to_index k = dictGet? g.node_to_index k) := by
  intro nodes
  induction nodes with
  | nil =>
      intro g out g' h
      simp [IPv6PropertiesGenerator.getHostsProperties] at h
      refine ⟨?_, ?_, ?_⟩
      · rw [← h.2]
        simp
      · intro n hn
        simp at hn
      · intro k hk
        rw [← h.2]
  | cons x xs ih =>
      intro g out g' h
      simp only [IPv6PropertiesGenerator.getHostsProperties] at h
      obtain ⟨p, hp, h⟩ := bind_ok _ _ _ h
      simp [pure, Except.pure] at h
      obtain ⟨hout, hg⟩ := h
      subst hg
      obtain ⟨ih1, ih2, ih3⟩ := ih _ _ _ hp
      refine ⟨?_, ?_, ?_⟩
      · simp at ih1
        simp [ih1]
        omega
      · intro n hn
        by_cases hnx : n ∈ xs
        · rw [ih2 n hnx]
          simp only [lastOcc, hnx, if_pos]
          congr 1
          omega
        · have hnx2 : n = x := by
            rcases List.mem_cons.mp hn with h1 | h1
            · exact h1
            · exact absurd h1 hnx
          subst hnx2
          rw [ih3 n hnx]
          simp only [lastOcc, hnx, if_neg, if_false]
          simp [dictGet_dictSet_same]
      · intro k hk
        have hk1 : ¬ k ∈ xs := fun hh => hk (List.mem_cons_of_mem _ hh)
        have hk2 : ¬ k = x := fun hh => hk (hh ▸ List.mem_cons_self _ _)
        rw [ih3 k hk1]
        simp [dictGet_dictSet_other _ _ _ _ hk2]

/-!
Failure behaviour of the link loops on unregistered endpoints.
-/

theorem mgmtGetNet_err (c r : Option Nat) :
    IPv6MgmtAllocator.getNet c r = .error .addressValueError := by
  have h : ipv4InterfaceIp IPv6MgmtAllocator.netStr = .error .addressValueError := rfl
  simp [IPv6MgmtAllocator.getNet, h, Bind.bind, Except.bind]

theorem coreFailSpec : ∀ (links : List (String × String)) (g : Gen) (l : String × String),
    l ∈ links →
    (dictGet? g.node_to_index l.1 = none ∨ dictGet? g.node_to_index l.2 = none) →
    IPv6PropertiesGenerator.getCoreLinksProperties g links = .error .keyError := by
  intro links
  induction links with
  | nil =>
      intro g l hmem hbad
      simp at hmem
  | cons hd tl ih =>
      intro g l hmem hbad
      simp only [IPv6PropertiesGenerator.getCoreLinksProperties]
      cases h1 : dictGet? g.node_to_index hd.1 with
      | none => simp [dictFind, h1, Bind.bind, Except.bind]
      | some a =>
          cases h2 : dictGet? g.node_to_index hd.2 with
          | none => simp [dictFind, h1, h2, Bind.bind, Except.bind]
          | some b =>
              have hl : l ∈ tl := by
                rcases List.mem_cons.mp hmem with he | ht
                · subst he
                  rcases hbad with hb | hb
                  · rw [h1] at hb
                    exact absurd hb (by simp)
                  · rw [h2] at hb
                    exact absurd hb (by simp)
                · exact ht
              have hrec := ih g l hl hbad
              simp [dictFind, h1, h2, hrec, Bind.bind, Except.bind]

theorem edgeFailSpec : ∀ (links : List (String × String)) (g : Gen) (l : String × String),
    l ∈ links →
    (dictGet? g.node_to_index l.1 = none ∨ dictGet? g.node_to_index l.2 = none) →
    IPv6PropertiesGenerator.getEdgeLinksProperties g links = .error .typeError := by
  intro links
  induction links with
  | nil =>
      intro g l hmem hbad
      simp at hmem
  | cons hd tl ih =>
      intro g l hmem hbad
      simp only [IPv6PropertiesGenerator.getEdgeLinksProperties]
      cases h1 : dictGet? g.node_to_index hd.1 with
      | none => simp [optInt, h1, Bind.bind, Except.bind]
      | some a =>
          cases h2 : dictGet? g.node_to_index hd.2 with
          | none => simp [optInt, h1, h2, Bind.bind, Except.bind]
          | some b =>
              have hl : l ∈ tl := by
                rcases List.mem_cons.mp hmem with he | ht
                · subst he
                  rcases hbad with hb | hb
                  · rw [h1] at hb
                    exact absurd hb (by simp)
                  · rw [h2] at hb
                    exact absurd hb (by simp)
                · exact ht
              have hrec := ih g l hl hbad
              simp [optInt, h1, h2, hrec, Bind.bind, Except.bind]

theorem accessFailSpec : ∀ (links : List (String × String)) (g : Gen) (l : String × String),
    l ∈ links →
    (dictGet? g.node_to_index l.1 = none ∨ dictGet? g.node_to_index l.2 = none) →
    IPv6PropertiesGenerator.getAccessLinksProperties g links = .error .typeError := by
  intro links
  induction links with
  | nil =>
      intro g l hmem hbad
      simp at hmem
  | cons hd tl ih =>
      intro g l hmem hbad
      simp only [IPv6PropertiesGenerator.getAccessLinksProperties]
      cases h1 : dictGet? g.node_to_index hd.1 with
      | none => simp [optInt, h1, Bind.bind, Except.bind]
      | some a =>
          cases h2 : dictGet? g.node_to_index hd.2 with
          | none => simp [optInt, h1, h2, Bind.bind, Except.bind]
          | some b =>
              have hl : l ∈ tl := by
                rcases List.mem_cons.mp hmem with he | ht
                · subst he
                  rcases hbad with hb | hb
                  · rw [h1] at hb
                    exact absurd hb (by simp)
                  · rw [h2] at hb
                    exact absurd hb (by simp)
                · exact ht
              have hrec := ih g l hl hbad
              simp [optInt, h1, h2, hrec, Bind.bind, Except.bind]

theorem mgmtFailSpec (links : List (String × String)) (g : Gen)
    (h : links ≠ []) :
    IPv6PropertiesGenerator.getMgmtLinksProperties g links = .error .addressValueError := by
  cases links with
  | nil => exact absurd rfl h
  | cons hd tl =>
      simp [IPv6PropertiesGenerator.getMgmtLinksProperties, mgmtGetNet_err,
        Bind.bind, Except.bind]

/-!
Claim theorems.
-/

/-- C1, counterexample: the claim says `RouterNetAllocator.getRouterNet i`
is disjoint from the /64 of `LoopbackAllocator.getLoopbackAddress i`; at
`i = 1` the loopback address itself lies in both blocks, because the
router /32 deliberately aggregates the per-router sub-blocks. -/
theorem c1_counterexample :
    ¬ disjointNet (RouterNetAllocator.getRouterNet 1)
        (slash64 (LoopbackAllocator.getLoopbackAddress 1)) :=
  fun h => h (LoopbackAllocator.getLoopbackAddress 1) (by decide) (by decide)

/-- C1, amended: for in-range indices, the loopback /64, the SID family
of the router id (any dotted-quad string parsing to `i`), and the
customer-facing net are pairwise disjoint; each of them is contained in
(rather than disjoint from) the router /32 `getRouterNet i`; and the core
inter-router nets (from `fcf0::/16`) are disjoint from the router /32. -/
theorem c1_amended_domain_disjointness (i j : Nat) (s : String) (fam : IPNetwork)
    (hi1 : 1 ≤ i) (hi2 : i < 2 ^ 16) (hj1 : 1 ≤ j) (hj2 : j < 2 ^ 16)
    (hs : ipv4AddressOfStr s = .ok i)
    (hfam : SIDAllocator.getSIDFamily s = .ok fam) :
    disjointNet (slash64 (LoopbackAllocator.getLoopbackAddress i)) fam ∧
    disjointNet (slash64 (LoopbackAllocator.getLoopbackAddress i))
      (IPv6CustomerFacingNetAllocator.getNet i j) ∧
    disjointNet fam (IPv6CustomerFacingNetAllocator.getNet i j) ∧
    subsetNet (slash64 (LoopbackAllocator.getLoopbackAddress i))
      (RouterNetAllocator.getRouterNet i) ∧
    subsetNet fam (RouterNetAllocator.getRouterNet i) ∧
    subsetNet (IPv6CustomerFacingNetAllocator.getNet i j)
      (RouterNetAllocator.getRouterNet i) ∧
    (∀ l r : Nat, 1 ≤ l → l < 2 ^ 16 → 1 ≤ r → r < 2 ^ 16 →
      disjointNet (IPv6NetAllocator.getNet l r) (RouterNetAllocator.getRouterNet i)) := by
  have hfam2 : fam = supernet6 ⟨net ||| i <<< 96 ||| 2 <<< 80, 128⟩ SIDAllocator.prefixLen := by
    simp [SIDAllocator.getSIDFamily, hs, Bind.bind, Except.bind, pure, Except.pure] at hfam
    exact hfam.symm
  have hfamS : fam = ⟨2 ^ 64 * (2 ^ 32 * (0xfcff * 2 ^ 16 + i) + 2 ^ 17), 64⟩ :=
    hfam2.trans (sidFamily_shape i hi2)
  rw [hfamS, loopback_slash64_shape i hi2, cf_shape i j hi2 hj2, routerNet_shape i hi2]
  refine ⟨disjointNet64 _ _ (by omega), disjointNet64 _ _ (by omega),
    disjointNet64 _ _ (by omega), subsetNet64_32 _ _ (by omega),
    subsetNet64_32 _ _ (by omega), subsetNet64_32 _ _ (by omega), ?_⟩
  intro l r hl1 hl2 hr1 hr2
  rw [core_getNet_shape l r hl2 hr2]
  exact disjointNet64_32 _ _ (by omega)

/-- C1 witness: the amended disjointness theorem applied at router index
1, host index 2, router-id string "0.0.0.1". -/
theorem c1_amended_domain_disjointness_witness :
    disjointNet (slash64 (LoopbackAllocator.getLoopbackAddress 1))
        ⟨0xfcff0001000200000000000000000000, 64⟩ ∧
    disjointNet (slash64 (LoopbackAllocator.getLoopbackAddress 1))
      (IPv6CustomerFacingNetAllocator.getNet 1 2) ∧
    disjointNet ⟨0xfcff0001000200000000000000000000, 64⟩
      (IPv6CustomerFacingNetAllocator.getNet 1 2) ∧
    subsetNet (slash64 (LoopbackAllocator.getLoopbackAddress 1))
      (RouterNetAllocator.getRouterNet 1) ∧
    subsetNet ⟨0xfcff0001000200000000000000000000, 64⟩
      (RouterNetAllocator.getRouterNet 1) ∧
    subsetNet (IPv6CustomerFacingNetAllocator.getNet 1 2)
      (RouterNetAllocator.getRouterNet 1) ∧
    (∀ l r : Nat, 1 ≤ l → l < 2 ^ 16 → 1 ≤ r → r < 2 ^ 16 →
      disjointNet (IPv6NetAllocator.getNet l r) (RouterNetAllocator.getRouterNet 1)) :=
  c1_amended_domain_disjointness 1 2 ("0.0.0.1")
    ⟨0xfcff0001000200000000000000000000, 64⟩
    (by decide) (by decide) (by decide) (by decide) rfl rfl

/-- C2: management-link resolution is NOT structurally sound in the code:
`IPv6MgmtAllocator` feeds its IPv6 block "2000::/16" to `IPv4Interface`,
so `getMgmtLinksProperties` raises `AddressValueError` even for a link
between two previously registered nodes. -/
theorem c2_mgmt_links_raise :
    (IPv6PropertiesGenerator.getRoutersProperties ⟨0, []⟩ [("c1"), ("r1")]).bind
        (fun p => IPv6PropertiesGenerator.getMgmtLinksProperties p.2 [(("c1"), ("r1"))]) =
      .error .addressValueError := rfl

/-- C3: concrete deterministic values — loopback of router index 1 is
fcff:0001:0:0::1, router-id of index 1 is "0.0.0.1", and the core link
(1,2) has network fcf0:0000:0001:0002::/64 with endpoint addresses ::1
and ::2. -/
theorem c3_concrete_values :
    LoopbackAllocator.getLoopbackAddress 1 = 0xfcff0001000000000000000000000001 ∧
    RouterIdAllocator.getRouterId 1 = .ok ("0.0.0.1") ∧
    IPv6NetAllocator.getNet 1 2 = ⟨0xfcf00000000100020000000000000000, 64⟩ ∧
    IPv6NetAllocator.getLRouterAddress 1 2 = 0xfcf00000000100020000000000000001 ∧
    IPv6NetAllocator.getRRouterAddress 1 2 = 0xfcf00000000100020000000000000002 :=
  ⟨rfl, rfl, rfl, rfl, rfl⟩

/-- C4: concrete SID values — for router-id "0.0.0.1" and VPN id 5 the
SID is fcff:0001:0002:0000:0000:0000:0000:0005 and the SID family is
fcff:1:2::/64. -/
theorem c4_sid_concrete_values :
    SIDAllocator.getSID ("0.0.0.1") 5 = .ok 0xfcff0001000200000000000000000005 ∧
    SIDAllocator.getSIDFamily ("0.0.0.1") =
      .ok ⟨0xfcff0001000200000000000000000000, 64⟩ :=
  ⟨rfl, rfl⟩

/-- C5, counterexample: registering the list ["a", "a"] from a fresh
generator leaves "a" mapped to index 2 — the second encounter of the
identifier DID get a new index, contradicting the once-per-identifier
claim (which would leave it at 1). -/
theorem c5_counterexample :
    (IPv6PropertiesGenerator.getRoutersProperties ⟨0, []⟩ [("a"), ("a")]).map
        (fun p => dictGet? p.2.node_to_index ("a")) = .ok (some 2) ∧
      (2 : Nat) ≠ 1 :=
  ⟨rfl, by decide⟩

/-- C5, amended: every occurrence of an identifier in a registration list
(routers or hosts) pre-increments the counter — the counter grows by the
list length, not by the number of distinct identifiers — and the map ends
up binding each listed identifier to the index assigned at its LAST
occurrence (overwriting earlier assignments), with the first node of a
fresh run getting index 1. -/
theorem c5_amended_registration (g : Gen) (nodes : List String)
    (outR : List RouterProperties) (gR : Gen)
    (outH : List HostProperties) (gH : Gen)
    (hR : IPv6PropertiesGenerator.getRoutersProperties g nodes = .ok (outR, gR))
    (hH : IPv6PropertiesGenerator.getHostsProperties g nodes = .ok (outH, gH)) :
    (gR.index = g.index + nodes.length ∧
      ∀ n, n ∈ nodes →
        dictGet? gR.node_to_index n = some (g.index + 1 + lastOcc nodes n)) ∧
    (gH.index = g.index + nodes.length ∧
      ∀ n, n ∈ nodes →
        dictGet? gH.node_to_index n = some (g.index + 1 + lastOcc nodes n)) := by
  obtain ⟨h1, h2, h3⟩ := routersRegSpec nodes g outR gR hR
  obtain ⟨h4, h5, h6⟩ := hostsRegSpec nodes g outH gH hH
  exact ⟨⟨h1, h2⟩, ⟨h4, h5⟩⟩

/-- C5 witness: the amended registration theorem applied to the fresh
generator and the duplicate list ["a", "a"]: the map holds index 2 (the
last occurrence, at position 1). -/
theorem c5_amended_registration_witness :
    dictGet? [(("a"), 2)] ("a") = some (0 + 1 + lastOcc [("a"), ("a")] ("a")) :=
  (c5_amended_registration ⟨0, []⟩ [("a"), ("a")]
    [⟨some 0xfcff0001000000000000000000000001, ("0.0.0.1"),
        some ⟨0xfcff0001000000000000000000000000, 32⟩, none, 1⟩,
      ⟨some 0xfcff0002000000000000000000000001, ("0.0.0.2"),
        some ⟨0xfcff0002000000000000000000000000, 32⟩, none, 2⟩]
    ⟨2, [(("a"), 2)]⟩
    [⟨some 0xfcff0001000000000000000000000001, none, 1⟩,
      ⟨some 0xfcff0002000000000000000000000001, none, 2⟩]
    ⟨2, [(("a"), 2)]⟩ rfl rfl).1.2 ("a") (by simp)

/-- C6, counterexample: on a fresh generator with no registered nodes,
edge-link resolution fails with a `TypeError` from shifting the `None`
returned by `dict.get` — not with the key-lookup (UnknownNode-style)
error the claim describes for every link operation. -/
theorem c6_counterexample :
    IPv6PropertiesGenerator.getEdgeLinksProperties ⟨0, []⟩ [(("a"), ("b"))] =
        .error .typeError ∧
      PyErr.typeError ≠ PyErr.keyError :=
  ⟨rfl, by decide⟩

/-- C6, amended: when a link list mentions an endpoint that is not in the
node-to-index map, none of the four link operations silently allocates:
core resolution fails with the key-lookup `KeyError` (the UnknownNode
condition); edge and access resolution also fail, but with a `TypeError`
from using the missing (`None`) index; and management resolution fails
with `AddressValueError` (its allocator rejects "2000::/16" before even
using the indices). -/
theorem c6_amended_fail_fast (g : Gen) (links : List (String × String))
    (l : String × String) (hmem : l ∈ links)
    (hbad : dictGet? g.node_to_index l.1 = none ∨ dictGet? g.node_to_index l.2 = none) :
    IPv6PropertiesGenerator.getCoreLinksProperties g links = .error .keyError ∧
    IPv6PropertiesGenerator.getEdgeLinksProperties g links = .error .typeError ∧
    IPv6PropertiesGenerator.getAccessLinksProperties g links = .error .typeError ∧
    IPv6PropertiesGenerator.getMgmtLinksProperties g links = .error .addressValueError := by
  refine ⟨coreFailSpec links g l hmem hbad, edgeFailSpec links g l hmem hbad,
    accessFailSpec links g l hmem hbad, mgmtFailSpec links g ?_⟩
  intro hnil
  rw [hnil] at hmem
  simp at hmem

/-- C6 witness: the amended fail-fast theorem applied to a fresh
generator and the single link ("a", "b"). -/
theorem c6_amended_fail_fast_witness :
    IPv6PropertiesGenerator.getCoreLinksProperties ⟨0, []⟩ [(("a"), ("b"))] =
        .error .keyError ∧
    IPv6PropertiesGenerator.getEdgeLinksProperties ⟨0, []⟩ [(("a"), ("b"))] =
        .error .typeError ∧
    IPv6PropertiesGenerator.getAccessLinksProperties ⟨0, []⟩ [(("a"), ("b"))] =
        .error .typeError ∧
    IPv6PropertiesGenerator.getMgmtLinksProperties ⟨0, []⟩ [(("a"), ("b"))] =
        .error .addressValueError :=
  c6_amended_fail_fast ⟨0, []⟩ [(("a"), ("b"))] (("a"), ("b")) (by simp) (Or.inl rfl)

/-- C7: the two-index core-link allocator is intentionally asymmetric:
for distinct in-range indices the two orders give different networks,
because the indices occupy different 16-bit fields. -/
theorem c7_asymmetry (a b : Nat) (ha1 : 1 ≤ a) (ha2 : a < 2 ^ 16)
    (hb1 : 1 ≤ b) (hb2 : b < 2 ^ 16) (hne : a ≠ b) :
    IPv6NetAllocator.getNet a b ≠ IPv6NetAllocator.getNet b a := by
  rw [core_getNet_shape a b ha2 hb2, core_getNet_shape b a hb2 ha2]
  intro h
  rw [IPNetwork.mk.injEq] at h
  omega

/-- C7 witness: `getNet 1 2 ≠ getNet 2 1`. -/
theorem c7_asymmetry_witness :
    IPv6NetAllocator.getNet 1 2 ≠ IPv6NetAllocator.getNet 2 1 :=
  c7_asymmetry 1 2 (by decide) (by decide) (by decide) (by decide) (by decide)

/-- C8: loopback allocation is injective on in-range indices. -/
theorem c8_loopback_injective (i i' : Nat) (h1 : 1 ≤ i) (h2 : i < 2 ^ 16)
    (h3 : 1 ≤ i') (h4 : i' < 2 ^ 16) (hne : i ≠ i') :
    LoopbackAllocator.getLoopbackAddress i ≠ LoopbackAllocator.getLoopbackAddress i' := by
  rw [loopback_shape i h2, loopback_shape i' h4]
  omega

/-- C8 witness: loopbacks of indices 1 and 2 differ. -/
theorem c8_loopback_injective_witness :
    LoopbackAllocator.getLoopbackAddress 1 ≠ LoopbackAllocator.getLoopbackAddress 2 :=
  c8_loopback_injective 1 2 (by decide) (by decide) (by decide) (by decide) (by decide)

/-- C9: both endpoint addresses of a core link lie inside the /64 network
returned for that same link. -/
theorem c9_endpoint_containment (l r : Nat) (hl1 : 1 ≤ l) (hl2 : l < 2 ^ 16)
    (hr1 : 1 ≤ r) (hr2 : r < 2 ^ 16) :
    memNet (IPv6NetAllocator.getLRouterAddress l r) (IPv6NetAllocator.getNet l r) ∧
    memNet (IPv6NetAllocator.getRRouterAddress l r) (IPv6NetAllocator.getNet l r) := by
  rw [core_getNet_shape l r hl2 hr2, core_getL_shape l r hl2 hr2,
    core_getR_shape l r hl2 hr2]
  constructor
  · rw [memNet64_iff]
    omega
  · rw [memNet64_iff]
    omega

/-- C9 witness: containment at the concrete link (1, 2). -/
theorem c9_endpoint_containment_witness :
    memNet (IPv6NetAllocator.getLRouterAddress 1 2) (IPv6NetAllocator.getNet 1 2) ∧
    memNet (IPv6NetAllocator.getRRouterAddress 1 2) (IPv6NetAllocator.getNet 1 2) :=
  c9_endpoint_containment 1 2 (by decide) (by decide) (by decide) (by decide)

/-- C10: the six link-resolution operations (core/edge/access, for both
the IPv6 and the IPv4 generator) leave the index counter and the
node-to-index map exactly as they were: whenever a call returns, the
returned state equals the input state. -/
theorem c10_links_frame (g : Gen) (links : List (String × String))
    (out1 out2 out3 out4 out5 out6 : List LinkProperties)
    (g1 g2 g3 g4 g5 g6 : Gen)
    (h1 : IPv6PropertiesGenerator.getCoreLinksProperties g links = .ok (out1, g1))
    (h2 : IPv6PropertiesGenerator.getEdgeLinksProperties g links = .ok (out2, g2))
    (h3 : IPv6PropertiesGenerator.getAccessLinksProperties g links = .ok (out3, g3))
    (h4 : IPv4PropertiesGenerator.getCoreLinksProperties g links = .ok (out4, g4))
    (h5 : IPv4PropertiesGenerator.getEdgeLinksProperties g links = .ok (out5, g5))
    (h6 : IPv4PropertiesGenerator.getAccessLinksProperties g links = .ok (out6, g6)) :
    g1 = g ∧ g2 = g ∧ g3 = g ∧ g4 = g ∧ g5 = g ∧ g6 = g :=
  ⟨core6Frame links g out1 g1 h1, edge6Frame links g out2 g2 h2,
    access6Frame links g out3 g3 h3, core4Frame links g out4 g4 h4,
    edge4Frame links g out5 g5 h5, access4Frame links g out6 g6 h6⟩

/-- C10 witness: all six link operations run on the state with "a" at
index 1 and "b" at index 2 and the single link ("a", "b"), each returning
that same state. -/
theorem c10_links_frame_witness :
    (⟨2, [(("a"), 1), (("b"), 2)]⟩ : Gen) = ⟨2, [(("a"), 1), (("b"), 2)]⟩ ∧
    (⟨2, [(("a"), 1), (("b"), 2)]⟩ : Gen) = ⟨2, [(("a"), 1), (("b"), 2)]⟩ ∧
    (⟨2, [(("a"), 1), (("b"), 2)]⟩ : Gen) = ⟨2, [(("a"), 1), (("b"), 2)]⟩ ∧
    (⟨2, [(("a"), 1), (("b"), 2)]⟩ : Gen) = ⟨2, [(("a"), 1), (("b"), 2)]⟩ ∧
    (⟨2, [(("a"), 1), (("b"), 2)]⟩ : Gen) = ⟨2, [(("a"), 1), (("b"), 2)]⟩ ∧
    (⟨2, [(("a"), 1), (("b"), 2)]⟩ : Gen) = ⟨2, [(("a"), 1), (("b"), 2)]⟩ :=
  c10_links_frame ⟨2, [(("a"), 1), (("b"), 2)]⟩ [(("a"), ("b"))]
    [⟨0xfcf00000000100020000000000000001, 0xfcf00000000100020000000000000002,
        ⟨0xfcf00000000100020000000000000000, 64⟩, 64⟩]
    [⟨0xfcff0001000300020000000000000001, 0xfcff0001000300020000000000000002,
        ⟨0xfcff0001000300020000000000000000, 64⟩, 64⟩]
    [⟨0xfcfb0001000300020000000000000001, 0xfcfb0001000300020000000000000002,
        ⟨0xfcfb0001000300020000000000000000, 64⟩, 64⟩]
    [⟨184557577, 184557578, ⟨184557576, 30⟩, 30⟩]
    [⟨3232236041, 3232236042, ⟨3232236032, 24⟩, 24⟩]
    [⟨167772681, 167772682, ⟨167772680, 30⟩, 30⟩]
    ⟨2, [(("a"), 1), (("b"), 2)]⟩ ⟨2, [(("a"), 1), (("b"), 2)]⟩
    ⟨2, [(("a"), 1), (("b"), 2)]⟩ ⟨2, [(("a"), 1), (("b"), 2)]⟩
    ⟨2, [(("a"), 1), (("b"), 2)]⟩ ⟨2, [(("a"), 1), (("b"), 2)]⟩
    rfl rfl rfl rfl rfl rfl
